import Mathlib

/-!
Shallow embedding of the Twilio ConversationRelay questionnaire service
(`relay_handlers.py`, `main.py`, `ai_utils.py`) together with proofs about
its session state machine, silence watchdog, compliance classifier and
transcription webhook.

Modelling conventions:
* Python dicts keyed by strings become association lists (`alookup` / `aset`).
* External side effects (websocket sends, the persisted answer file, the
  Twilio hangup REST call) are recorded as an ordered `Event` trace.
* The asyncio silence-watchdog tasks become a set of live timers
  `(timer id, call sid)`; starting a timer allocates a fresh id, cancelling
  removes it, and a separate `silence_watchdog_fire` step models the body of
  `_silence_watchdog` running after its sleep completes uncancelled.
* Calls to the OpenAI validator / classifier are modelled by passing their
  outcome (success value or raised exception) as an explicit argument.
-/

namespace TwilioTests

/-- Python `str.strip()` (no arguments): drop leading and trailing
whitespace.  Defined by structural recursion over the character list so
that concrete instances evaluate inside the kernel. -/
def pyStrip (s : String) : String :=
  ⟨(((s.data.dropWhile Char.isWhitespace).reverse.dropWhile Char.isWhitespace).reverse)⟩

/-- Python `str.lower()` on the ASCII texts this service handles. -/
def pyLower (s : String) : String :=
  ⟨s.data.map Char.toLower⟩

/-- Python dict lookup `d.get(k)` on the association-list model of a dict. -/
def alookup {α : Type} : List (String × α) → String → Option α
  | [], _ => none
  | (k, v) :: rest, key => if k = key then some v else alookup rest key

/-- Python dict assignment `d[k] = v`: replace the existing binding for `k`,
or append a new binding if none exists. -/
def aset {α : Type} : List (String × α) → String → α → List (String × α)
  | [], key, v => [(key, v)]
  | (k, w) :: rest, key, v =>
    if k = key then (key, v) :: rest else (k, w) :: aset rest key v

/-- Python dict removal `d.pop(k, None)`. -/
def aremove {α : Type} : List (String × α) → String → List (String × α)
  | [], _ => []
  | (k, w) :: rest, key => if k = key then rest else (k, w) :: aremove rest key

theorem alookup_aset_self {α : Type} (m : List (String × α)) (k : String) (v : α) :
    alookup (aset m k v) k = some v := by
  induction m with
  | nil => simp [aset, alookup]
  | cons hd t ih =>
    obtain ⟨k', w⟩ := hd
    by_cases hk : k' = k
    · simp [aset, hk, alookup]
    · simp [aset, hk, alookup, ih]

theorem alookup_aset_ne {α : Type} (m : List (String × α)) (k k' : String) (v : α)
    (h : k' ≠ k) : alookup (aset m k v) k' = alookup m k' := by
  have hne : ¬k = k' := fun hh => h hh.symm
  induction m with
  | nil => simp [aset, alookup, hne]
  | cons hd t ih =>
    obtain ⟨k0, w⟩ := hd
    by_cases hk : k0 = k
    · subst hk
      simp [aset, alookup, hne]
    · simp [aset, hk, alookup, ih]

theorem aset_aset {α : Type} (m : List (String × α)) (k : String) (a b : α) :
    aset (aset m k a) k b = aset m k b := by
  induction m with
  | nil => simp [aset]
  | cons hd t ih =>
    obtain ⟨k', w⟩ := hd
    by_cases hk : k' = k
    · simp [aset, hk]
    · simp [aset, hk, ih]

/-- Either the binding was just written at `k`, or it was already in the map. -/
theorem alookup_aset_cases {α : Type} (m : List (String × α)) (k k' : String) (v w : α)
    (h : alookup (aset m k v) k' = some w) :
    (k' = k ∧ w = v) ∨ alookup m k' = some w := by
  by_cases hk : k' = k
  · subst hk
    rw [alookup_aset_self] at h
    exact Or.inl ⟨rfl, (Option.some.injEq _ _ ▸ h).symm⟩
  · rw [alookup_aset_ne m k k' v hk] at h
    exact Or.inr h

/-! ## `relay_handlers.py`: questionnaire data -/

/-- One entry of the module-level `QUESTIONNAIRE` list. -/
structure Question where
  id : String
  prompt : String
  qtype : String
deriving Repr, DecidableEq

/-- The fixed `QUESTIONNAIRE` list from `relay_handlers.py`. -/
def QUESTIONNAIRE : List Question := [
  ⟨"name", "What is your name?", "name"⟩,
  ⟨"public_company_employment",
   "Are you currently employed at a public company? Please answer yes or no.",
   "yes_no"⟩,
  ⟨"data_center_construction_experience",
   "What is your experience in data center construction?", "topic_text"⟩,
  ⟨"data_center_construction_company",
   "What datacenter construction company you are working in?", "topic_entity"⟩,
  ⟨"location_selection_experience",
   "On a scale of one to ten, what is your experience dealing with data center location selection?",
   "scale_1_10"⟩]

/-- `COMPLETION_MESSAGE` from `relay_handlers.py`. -/
def COMPLETION_MESSAGE : String :=
  "Thank you. The questionnaire is complete. You can hang up safely now."

/-! ## Session state and system state -/

/-- The per-call state dict created by `handle_setup_message`.  The
`silence_task` field holds the id of the session's live watchdog timer,
mirroring the asyncio `Task` stored under `state["silence_task"]`. -/
structure SessionState where
  question_index : Nat
  answers : List (String × String)
  completed : Bool
  status : String
  termination_reason : String
  invalid_attempts_current_question : Nat
  terminated : Bool
  silence_task : Option Nat
deriving Repr, DecidableEq

/-- The fresh state dict literal written by `handle_setup_message`. -/
def freshSession : SessionState :=
  { question_index := 0
    answers := []
    completed := false
    status := "in_progress"
    termination_reason := ""
    invalid_attempts_current_question := 0
    terminated := false
    silence_task := none }

/-- Observable side effects of the handlers, in program order.
`persist` records `_persist_answers` writing the answer file;
`hangupAttempt` records entering `_hangup_call_via_twilio` (whose own
failures are caught); `speak` records `send_assistant_message`. -/
inductive Event where
  | persist (call_sid status termination_reason : String) (answers : List (String × String))
  | hangupAttempt (call_sid msg : String)
  | speak (text : String)
deriving Repr, DecidableEq

/-- Whole-system state: the `call_states` dict, the set of scheduled
watchdog tasks that have neither been cancelled nor fired, a counter for
allocating fresh timer ids, and the event trace. -/
structure Sys where
  call_states : List (String × SessionState)
  live_timers : List (Nat × String)
  next_timer : Nat
  events : List Event
deriving Repr, DecidableEq

/-- Cancel the task referenced by a state's `silence_task` field
(`_cancel_silence_timer`'s effect on the set of live timers). -/
def cancelTimer (live : List (Nat × String)) : Option Nat → List (Nat × String)
  | none => live
  | some tid => live.filter (fun e => e.1 ≠ tid)

/-! ## `relay_handlers.py`: handlers -/

/-- `_terminate_call`: no-op on an unknown call or an already-terminated
session; otherwise set the terminal fields, cancel the watchdog, persist the
answers, then attempt the Twilio hangup (in that order). -/
def terminate_call (sys : Sys) (call_sid spoken_message status termination_reason : String) :
    Sys :=
  match alookup sys.call_states call_sid with
  | none => sys
  | some st =>
    if st.terminated then sys
    else
      let st1 : SessionState :=
        { st with
          terminated := true
          termination_reason := termination_reason
          status := status
          completed := status == "completed"
          silence_task := none }
      { sys with
        call_states := aset sys.call_states call_sid st1
        live_timers := cancelTimer sys.live_timers st.silence_task
        events := sys.events ++
          [Event.persist call_sid status termination_reason st.answers,
           Event.hangupAttempt call_sid spoken_message] }

/-- Body of `_silence_watchdog` after its sleep finishes without being
cancelled: the task completes (leaves the live set), then terminates the
call with reason `"silence"` unless the session is gone or terminated. -/
def silence_watchdog_fire (sys : Sys) (tid : Nat) (call_sid : String) : Sys :=
  if (tid, call_sid) ∈ sys.live_timers then
    let sys1 : Sys := { sys with live_timers := sys.live_timers.filter (fun e => e.1 ≠ tid) }
    match alookup sys1.call_states call_sid with
    | none => sys1
    | some st =>
      if st.terminated then sys1
      else terminate_call sys1 call_sid "Ahoy!" "terminated" "silence"
  else sys

/-- `_start_or_reset_silence_timer`: no-op on unknown/terminated sessions;
otherwise cancel the current timer and schedule a fresh one. -/
def start_or_reset_silence_timer (sys : Sys) (call_sid : String) : Sys :=
  match alookup sys.call_states call_sid with
  | none => sys
  | some st =>
    if st.terminated then sys
    else
      { sys with
        call_states :=
          aset sys.call_states call_sid { st with silence_task := some sys.next_timer }
        live_timers := cancelTimer sys.live_timers st.silence_task ++
          [(sys.next_timer, call_sid)]
        next_timer := sys.next_timer + 1 }

/-- `send_current_question`: speak the current question and arm the
watchdog, or finalize as completed when past the last question. -/
def send_current_question (sys : Sys) (call_sid : String) : Sys :=
  match alookup sys.call_states call_sid with
  | none => sys
  | some st =>
    if st.terminated then sys
    else if QUESTIONNAIRE.length ≤ st.question_index then
      terminate_call sys call_sid COMPLETION_MESSAGE "completed" "completed"
    else
      let prompt := (QUESTIONNAIRE.getD st.question_index ⟨"", "", ""⟩).prompt
      start_or_reset_silence_timer
        { sys with events := sys.events ++ [Event.speak prompt] } call_sid

/-- `handle_setup_message`: overwrite `call_states[call_sid]` with a fresh
state dict (note: without cancelling any watchdog of a previous session
under the same key) and return the bound call sid. -/
def handle_setup_message (sys : Sys) (callSid : String) : Sys × Option String :=
  let call_sid := pyStrip callSid
  if call_sid = "" then (sys, none)
  else ({ sys with call_states := aset sys.call_states call_sid freshSession },
        some call_sid)

/-- The `"setup"` branch of `ws_endpoint` in `main.py`:
`handle_setup_message` followed by `send_current_question`. -/
def ws_setup (sys : Sys) (callSid : String) : Sys × Option String :=
  match handle_setup_message sys callSid with
  | (sys1, some sid) => (send_current_question sys1 sid, some sid)
  | (sys1, none) => (sys1, none)

/-- Outcome of calling the `answer_validator`
(`validate_questionnaire_answer`): either a raised exception, or the
`(is_valid, normalized_answer, error_message)` triple. -/
inductive ValidatorOutcome where
  | error
  | result (is_valid : Bool) (normalized : String) (error_message : String)
deriving Repr, DecidableEq

/-- `handle_prompt_message`, with the validator call replaced by its
outcome.  Mirrors the source checks in order: bound call sid, non-empty
`voicePrompt`, known session, not terminated, cancel the watchdog,
defensive completed check, then the validator-outcome branches. -/
def handle_prompt_message (sys : Sys) (call_sid? : Option String)
    (voicePrompt : String) (verdict : ValidatorOutcome) : Sys :=
  match call_sid? with
  | none => sys
  | some call_sid =>
    if pyStrip voicePrompt = "" then sys
    else
      match alookup sys.call_states call_sid with
      | none => sys
      | some st =>
        if st.terminated then sys
        else
          let st1 : SessionState := { st with silence_task := none }
          let sys1 : Sys :=
            { sys with
              call_states := aset sys.call_states call_sid st1
              live_timers := cancelTimer sys.live_timers st.silence_task }
          if QUESTIONNAIRE.length ≤ st1.question_index then
            terminate_call sys1 call_sid COMPLETION_MESSAGE "completed" "completed"
          else
            let question := QUESTIONNAIRE.getD st1.question_index ⟨"", "", ""⟩
            match verdict with
            | ValidatorOutcome.error =>
              { sys1 with
                events := sys1.events ++
                  [Event.speak ("I had trouble validating that response. " ++ question.prompt)] }
            | ValidatorOutcome.result is_valid normalized error_message =>
              if is_valid = false then
                let invalid_attempts := st1.invalid_attempts_current_question + 1
                let sys2 : Sys :=
                  { sys1 with
                    call_states := aset sys1.call_states call_sid
                      { st1 with invalid_attempts_current_question := invalid_attempts } }
                if 3 ≤ invalid_attempts then
                  terminate_call sys2 call_sid "invalid answers provided"
                    "terminated" "invalid_answers"
                else
                  let feedback :=
                    if error_message = "" then "That answer does not match this question."
                    else error_message
                  let sys3 : Sys :=
                    { sys2 with
                      events := sys2.events ++
                        [Event.speak (feedback ++ " " ++ question.prompt)] }
                  start_or_reset_silence_timer sys3 call_sid
              else
                let st2 : SessionState :=
                  { st1 with
                    invalid_attempts_current_question := 0
                    answers := aset st1.answers question.id normalized
                    question_index := st1.question_index + 1 }
                let sys2 : Sys :=
                  { sys1 with call_states := aset sys1.call_states call_sid st2 }
                if QUESTIONNAIRE.length ≤ st2.question_index then
                  terminate_call sys2 call_sid COMPLETION_MESSAGE "completed" "completed"
                else
                  let next_prompt := (QUESTIONNAIRE.getD st2.question_index ⟨"", "", ""⟩).prompt
                  let sys3 : Sys :=
                    { sys2 with events := sys2.events ++ [Event.speak next_prompt] }
                  start_or_reset_silence_timer sys3 call_sid

/-- `handle_interrupt_message` in `relay_handlers.py` only logs; it never
mutates any state. -/
def handle_interrupt_message (sys : Sys) (call_sid? : Option String)
    (utteranceUntilInterrupt : String) : Sys :=
  match call_sid? with
  | none => sys
  | some call_sid =>
    if pyStrip utteranceUntilInterrupt = "" then sys
    else
      match alookup sys.call_states call_sid with
      | none => sys
      | some _ => sys

/-- `cleanup_session`: pop the session and cancel its watchdog. -/
def cleanup_session (sys : Sys) (call_sid? : Option String) : Sys :=
  match call_sid? with
  | none => sys
  | some call_sid =>
    match alookup sys.call_states call_sid with
    | none => sys
    | some st =>
      { sys with
        call_states := aremove sys.call_states call_sid
        live_timers := cancelTimer sys.live_timers st.silence_task }

/-! ## Branch characterizations of the handlers -/

theorem terminate_call_unknown (sys : Sys) (sid msg status reason : String)
    (h : alookup sys.call_states sid = none) :
    terminate_call sys sid msg status reason = sys := by
  simp [terminate_call, h]

theorem terminate_call_already (sys : Sys) (sid msg status reason : String)
    (st : SessionState) (h : alookup sys.call_states sid = some st)
    (ht : st.terminated = true) :
    terminate_call sys sid msg status reason = sys := by
  simp [terminate_call, h, ht]

theorem terminate_call_live (sys : Sys) (sid msg status reason : String)
    (st : SessionState) (h : alookup sys.call_states sid = some st)
    (ht : st.terminated = false) :
    terminate_call sys sid msg status reason =
      { sys with
        call_states := aset sys.call_states sid
          { st with
            terminated := true
            termination_reason := reason
            status := status
            completed := status == "completed"
            silence_task := none }
        live_timers := cancelTimer sys.live_timers st.silence_task
        events := sys.events ++
          [Event.persist sid status reason st.answers, Event.hangupAttempt sid msg] } := by
  simp [terminate_call, h, ht]

theorem prompt_no_sid (sys : Sys) (vp : String) (v : ValidatorOutcome) :
    handle_prompt_message sys none vp v = sys := rfl

theorem prompt_empty_voice (sys : Sys) (sid vp : String) (v : ValidatorOutcome)
    (h : pyStrip vp = "") : handle_prompt_message sys (some sid) vp v = sys := by
  simp [handle_prompt_message, h]

theorem prompt_unknown_call (sys : Sys) (sid vp : String) (v : ValidatorOutcome)
    (hvp : pyStrip vp ≠ "") (h : alookup sys.call_states sid = none) :
    handle_prompt_message sys (some sid) vp v = sys := by
  simp [handle_prompt_message, hvp, h]

theorem prompt_terminated (sys : Sys) (sid vp : String) (v : ValidatorOutcome)
    (st : SessionState) (hvp : pyStrip vp ≠ "")
    (h : alookup sys.call_states sid = some st) (ht : st.terminated = true) :
    handle_prompt_message sys (some sid) vp v = sys := by
  simp [handle_prompt_message, hvp, h, ht]

theorem prompt_past_end (sys : Sys) (sid vp : String) (v : ValidatorOutcome)
    (st : SessionState) (hvp : pyStrip vp ≠ "")
    (h : alookup sys.call_states sid = some st) (ht : st.terminated = false)
    (hqi : QUESTIONNAIRE.length ≤ st.question_index) :
    handle_prompt_message sys (some sid) vp v =
      { sys with
        call_states := aset sys.call_states sid
          { st with
            terminated := true
            termination_reason := "completed"
            status := "completed"
            completed := true
            silence_task := none }
        live_timers := cancelTimer sys.live_timers st.silence_task
        events := sys.events ++
          [Event.persist sid "completed" "completed" st.answers,
           Event.hangupAttempt sid COMPLETION_MESSAGE] } := by
  simp [handle_prompt_message, hvp, h, ht, hqi, terminate_call, alookup_aset_self,
    aset_aset, cancelTimer]

theorem prompt_validator_error (sys : Sys) (sid vp : String) (st : SessionState)
    (h : alookup sys.call_states sid = some st)
    (ht : st.terminated = false)
    (hvp : pyStrip vp ≠ "")
    (hqi : st.question_index < QUESTIONNAIRE.length) :
    handle_prompt_message sys (some sid) vp ValidatorOutcome.error =
      { sys with
        call_states := aset sys.call_states sid { st with silence_task := none }
        live_timers := cancelTimer sys.live_timers st.silence_task
        events := sys.events ++
          [Event.speak ("I had trouble validating that response. " ++
            (QUESTIONNAIRE.getD st.question_index ⟨"", "", ""⟩).prompt)] } := by
  have hq : ¬QUESTIONNAIRE.length ≤ st.question_index := Nat.not_le.mpr hqi
  simp [handle_prompt_message, hvp, h, ht, hq]

theorem prompt_invalid_nonfinal (sys : Sys) (sid vp n m : String) (st : SessionState)
    (h : alookup sys.call_states sid = some st)
    (ht : st.terminated = false)
    (hvp : pyStrip vp ≠ "")
    (hqi : st.question_index < QUESTIONNAIRE.length)
    (hatt : st.invalid_attempts_current_question + 1 < 3) :
    handle_prompt_message sys (some sid) vp (ValidatorOutcome.result false n m) =
      { sys with
        call_states := aset sys.call_states sid
          { st with
            silence_task := some sys.next_timer
            invalid_attempts_current_question := st.invalid_attempts_current_question + 1 }
        live_timers := cancelTimer sys.live_timers st.silence_task ++ [(sys.next_timer, sid)]
        next_timer := sys.next_timer + 1
        events := sys.events ++
          [Event.speak ((if m = "" then "That answer does not match this question." else m) ++
            " " ++ (QUESTIONNAIRE.getD st.question_index ⟨"", "", ""⟩).prompt)] } := by
  have hq : ¬QUESTIONNAIRE.length ≤ st.question_index := Nat.not_le.mpr hqi
  have ha : ¬3 ≤ st.invalid_attempts_current_question + 1 := Nat.not_le.mpr hatt
  simp [handle_prompt_message, hvp, h, ht, hq, ha, start_or_reset_silence_timer,
    alookup_aset_self, aset_aset, cancelTimer]

theorem prompt_invalid_final (sys : Sys) (sid vp n m : String) (st : SessionState)
    (h : alookup sys.call_states sid = some st)
    (ht : st.terminated = false)
    (hvp : pyStrip vp ≠ "")
    (hqi : st.question_index < QUESTIONNAIRE.length)
    (hatt : 3 ≤ st.invalid_attempts_current_question + 1) :
    handle_prompt_message sys (some sid) vp (ValidatorOutcome.result false n m) =
      { sys with
        call_states := aset sys.call_states sid
          { st with
            silence_task := none
            invalid_attempts_current_question := st.invalid_attempts_current_question + 1
            terminated := true
            termination_reason := "invalid_answers"
            status := "terminated"
            completed := false }
        live_timers := cancelTimer sys.live_timers st.silence_task
        events := sys.events ++
          [Event.persist sid "terminated" "invalid_answers" st.answers,
           Event.hangupAttempt sid "invalid answers provided"] } := by
  have hq : ¬QUESTIONNAIRE.length ≤ st.question_index := Nat.not_le.mpr hqi
  simp [handle_prompt_message, hvp, h, ht, hq, hatt, terminate_call,
    alookup_aset_self, aset_aset, cancelTimer]

theorem prompt_valid_next (sys : Sys) (sid vp n m : String) (st : SessionState)
    (h : alookup sys.call_states sid = some st)
    (ht : st.terminated = false)
    (hvp : pyStrip vp ≠ "")
    (hqi : st.question_index + 1 < QUESTIONNAIRE.length) :
    handle_prompt_message sys (some sid) vp (ValidatorOutcome.result true n m) =
      { sys with
        call_states := aset sys.call_states sid
          { st with
            silence_task := some sys.next_timer
            invalid_attempts_current_question := 0
            answers := aset st.answers (QUESTIONNAIRE.getD st.question_index ⟨"", "", ""⟩).id n
            question_index := st.question_index + 1 }
        live_timers := cancelTimer sys.live_timers st.silence_task ++ [(sys.next_timer, sid)]
        next_timer := sys.next_timer + 1
        events := sys.events ++
          [Event.speak (QUESTIONNAIRE.getD (st.question_index + 1) ⟨"", "", ""⟩).prompt] } := by
  have hq : ¬QUESTIONNAIRE.length ≤ st.question_index :=
    Nat.not_le.mpr (Nat.lt_of_succ_lt hqi)
  have hq1 : ¬QUESTIONNAIRE.length ≤ st.question_index + 1 := Nat.not_le.mpr hqi
  simp [handle_prompt_message, hvp, h, ht, hq, hq1, start_or_reset_silence_timer,
    alookup_aset_self, aset_aset, cancelTimer]

theorem prompt_valid_complete (sys : Sys) (sid vp n m : String) (st : SessionState)
    (h : alookup sys.call_states sid = some st)
    (ht : st.terminated = false)
    (hvp : pyStrip vp ≠ "")
    (hqi : st.question_index < QUESTIONNAIRE.length)
    (hlast : QUESTIONNAIRE.length ≤ st.question_index + 1) :
    handle_prompt_message sys (some sid) vp (ValidatorOutcome.result true n m) =
      { sys with
        call_states := aset sys.call_states sid
          { st with
            silence_task := none
            invalid_attempts_current_question := 0
            answers := aset st.answers (QUESTIONNAIRE.getD st.question_index ⟨"", "", ""⟩).id n
            question_index := st.question_index + 1
            terminated := true
            termination_reason := "completed"
            status := "completed"
            completed := true }
        live_timers := cancelTimer sys.live_timers st.silence_task
        events := sys.events ++
          [Event.persist sid "completed" "completed"
            (aset st.answers (QUESTIONNAIRE.getD st.question_index ⟨"", "", ""⟩).id n),
           Event.hangupAttempt sid COMPLETION_MESSAGE] } := by
  have hq : ¬QUESTIONNAIRE.length ≤ st.question_index := Nat.not_le.mpr hqi
  simp [handle_prompt_message, hvp, h, ht, hq, hlast, terminate_call,
    alookup_aset_self, aset_aset, cancelTimer]

/-! ## Concrete fixtures used by the witnesses -/

/-- System state right after `Setup(callSid="A")` has been processed by the
websocket loop: one fresh session for `"A"` with watchdog timer `0` armed
and the first question spoken. -/
def demoStart : Sys :=
  (ws_setup { call_states := [], live_timers := [], next_timer := 0, events := [] } "A").1

/-- The session state stored for `"A"` inside `demoStart`. -/
def demoState : SessionState := { freshSession with silence_task := some 0 }

/-! ## Claim C1 -/

/-- C1: for every live session, three consecutive Prompt messages on the
same question that each receive an invalid validator verdict drive the
session to `status = "terminated"` with `termination_reason =
"invalid_answers"`, and the emitted event trace records the persisted
answer file strictly before the Twilio hangup attempt. -/
theorem three_invalid_prompts_terminate (sys : Sys) (sid : String)
    (vp1 vp2 vp3 n1 n2 n3 m1 m2 m3 : String) (st : SessionState)
    (h : alookup sys.call_states sid = some st)
    (ht : st.terminated = false)
    (hatt : st.invalid_attempts_current_question = 0)
    (hqi : st.question_index < QUESTIONNAIRE.length)
    (hvp1 : pyStrip vp1 ≠ "") (hvp2 : pyStrip vp2 ≠ "") (hvp3 : pyStrip vp3 ≠ "") :
    alookup (handle_prompt_message (handle_prompt_message (handle_prompt_message sys
        (some sid) vp1 (ValidatorOutcome.result false n1 m1))
        (some sid) vp2 (ValidatorOutcome.result false n2 m2))
        (some sid) vp3 (ValidatorOutcome.result false n3 m3)).call_states sid =
      some { st with
        silence_task := none
        invalid_attempts_current_question := 3
        terminated := true
        termination_reason := "invalid_answers"
        status := "terminated"
        completed := false } ∧
    (handle_prompt_message (handle_prompt_message (handle_prompt_message sys
        (some sid) vp1 (ValidatorOutcome.result false n1 m1))
        (some sid) vp2 (ValidatorOutcome.result false n2 m2))
        (some sid) vp3 (ValidatorOutcome.result false n3 m3)).events =
      sys.events ++
        [Event.speak ((if m1 = "" then "That answer does not match this question." else m1) ++
          " " ++ (QUESTIONNAIRE.getD st.question_index ⟨"", "", ""⟩).prompt),
         Event.speak ((if m2 = "" then "That answer does not match this question." else m2) ++
          " " ++ (QUESTIONNAIRE.getD st.question_index ⟨"", "", ""⟩).prompt),
         Event.persist sid "terminated" "invalid_answers" st.answers,
         Event.hangupAttempt sid "invalid answers provided"] := by
  rw [prompt_invalid_nonfinal sys sid vp1 n1 m1 st h ht hvp1 hqi (by omega)]
  rw [prompt_invalid_nonfinal _ sid vp2 n2 m2
    ({ st with
        silence_task := some sys.next_timer
        invalid_attempts_current_question := st.invalid_attempts_current_question + 1 })
    (alookup_aset_self _ _ _) ht hvp2 hqi
    (by show st.invalid_attempts_current_question + 1 + 1 < 3; omega)]
  rw [prompt_invalid_final _ sid vp3 n3 m3
    ({ st with
        silence_task := some (sys.next_timer + 1)
        invalid_attempts_current_question := st.invalid_attempts_current_question + 1 + 1 })
    (alookup_aset_self _ _ _) ht hvp3 hqi
    (by show 3 ≤ st.invalid_attempts_current_question + 1 + 1 + 1; omega)]
  constructor
  · simp [aset_aset, alookup_aset_self, hatt]
  · simp

/-- Witness for C1 at a concrete run: session `"A"` fresh on question 0,
three invalid answers `"blue"`. -/
theorem three_invalid_prompts_terminate_witness :
    alookup (handle_prompt_message (handle_prompt_message (handle_prompt_message demoStart
        (some "A") "blue" (ValidatorOutcome.result false "" "Not a name."))
        (some "A") "blue" (ValidatorOutcome.result false "" "Not a name."))
        (some "A") "blue" (ValidatorOutcome.result false "" "Not a name.")).call_states "A" =
      some { question_index := 0, answers := [], completed := false, status := "terminated",
             termination_reason := "invalid_answers", invalid_attempts_current_question := 3,
             terminated := true, silence_task := none } ∧
    (handle_prompt_message (handle_prompt_message (handle_prompt_message demoStart
        (some "A") "blue" (ValidatorOutcome.result false "" "Not a name."))
        (some "A") "blue" (ValidatorOutcome.result false "" "Not a name."))
        (some "A") "blue" (ValidatorOutcome.result false "" "Not a name.")).events =
      [Event.speak "What is your name?",
       Event.speak "Not a name. What is your name?",
       Event.speak "Not a name. What is your name?",
       Event.persist "A" "terminated" "invalid_answers" [],
       Event.hangupAttempt "A" "invalid answers provided"] :=
  three_invalid_prompts_terminate demoStart "A" "blue" "blue" "blue" "" "" ""
    "Not a name." "Not a name." "Not a name." demoState rfl rfl rfl (by decide)
    (by decide) (by decide) (by decide)

/-! ## Claim C2 -/

/-- C2: finalization is idempotent.  For a live session, terminating once
appends exactly one persisted answer record and one call-control hangup
attempt to the trace, and invoking `_terminate_call` a second time (with
any arguments) returns the system completely unchanged: no further
persistence, no further hangup, no session-state mutation. -/
theorem terminate_call_idempotent (sys : Sys)
    (sid msg status reason msg2 status2 reason2 : String) (st : SessionState)
    (h : alookup sys.call_states sid = some st) (ht : st.terminated = false) :
    terminate_call (terminate_call sys sid msg status reason) sid msg2 status2 reason2 =
      terminate_call sys sid msg status reason ∧
    (terminate_call sys sid msg status reason).events =
      sys.events ++
        [Event.persist sid status reason st.answers, Event.hangupAttempt sid msg] := by
  rw [terminate_call_live sys sid msg status reason st h ht]
  exact ⟨terminate_call_already _ sid msg2 status2 reason2 _ (alookup_aset_self _ _ _) rfl,
    rfl⟩

/-- Witness for C2 at a concrete live session. -/
theorem terminate_call_idempotent_witness :
    terminate_call (terminate_call demoStart "A" "Bye" "terminated" "silence") "A" "x" "y" "z" =
      terminate_call demoStart "A" "Bye" "terminated" "silence" ∧
    (terminate_call demoStart "A" "Bye" "terminated" "silence").events =
      [Event.speak "What is your name?",
       Event.persist "A" "terminated" "silence" [],
       Event.hangupAttempt "A" "Bye"] :=
  terminate_call_idempotent demoStart "A" "Bye" "terminated" "silence" "x" "y" "z"
    demoState rfl rfl

/-! ## Claim C3 -/

/-- State invariant for the consecutive-invalid counter: it never exceeds 3,
and having reached 3 forces the terminal latch. -/
def AttemptsInv (st : SessionState) : Prop :=
  st.invalid_attempts_current_question ≤ 3 ∧
    (3 ≤ st.invalid_attempts_current_question → st.terminated = true)

/-- `AttemptsInv` holds for every session in the system. -/
def SysAttemptsInv (sys : Sys) : Prop :=
  ∀ sid st, alookup sys.call_states sid = some st → AttemptsInv st

/-- Process a whole sequence of Prompt messages
`(bound call sid, voicePrompt, validator outcome)` in arrival order. -/
def runPrompts (sys : Sys) (ps : List (Option String × String × ValidatorOutcome)) : Sys :=
  ps.foldl (fun s p => handle_prompt_message s p.1 p.2.1 p.2.2) sys

theorem bool_eq_false_of_ne_true {b : Bool} (h : ¬b = true) : b = false := by
  cases b <;> simp_all

theorem prompt_preserves_attemptsInv (sys : Sys) (c : Option String) (vp : String)
    (v : ValidatorOutcome) (h : SysAttemptsInv sys) :
    SysAttemptsInv (handle_prompt_message sys c vp v) := by
  cases c with
  | none => rw [prompt_no_sid]; exact h
  | some sid =>
    by_cases hvp : pyStrip vp = ""
    · rw [prompt_empty_voice sys sid vp v hvp]; exact h
    · cases hst : alookup sys.call_states sid with
      | none => rw [prompt_unknown_call sys sid vp v hvp hst]; exact h
      | some st =>
        by_cases hterm : st.terminated = true
        · rw [prompt_terminated sys sid vp v st hvp hst hterm]; exact h
        · have ht : st.terminated = false := bool_eq_false_of_ne_true hterm
          have hInv := h sid st hst
          have hle2 : st.invalid_attempts_current_question ≤ 2 := by
            by_contra hc
            exact hterm (hInv.2 (by omega))
          by_cases hqi : QUESTIONNAIRE.length ≤ st.question_index
          · rw [prompt_past_end sys sid vp v st hvp hst ht hqi]
            intro sid' st' h'
            rcases alookup_aset_cases _ _ _ _ _ h' with ⟨_, rfl⟩ | hold
            · exact ⟨hInv.1, fun _ => rfl⟩
            · exact h sid' st' hold
          · have hqi' : st.question_index < QUESTIONNAIRE.length := Nat.lt_of_not_le hqi
            cases v with
            | error =>
              rw [prompt_validator_error sys sid vp st hst ht hvp hqi']
              intro sid' st' h'
              rcases alookup_aset_cases _ _ _ _ _ h' with ⟨_, rfl⟩ | hold
              · exact ⟨by simpa using hInv.1, fun h3 => hInv.2 h3⟩
              · exact h sid' st' hold
            | result is_valid n m =>
              cases is_valid with
              | false =>
                by_cases hfin : 3 ≤ st.invalid_attempts_current_question + 1
                · rw [prompt_invalid_final sys sid vp n m st hst ht hvp hqi' hfin]
                  intro sid' st' h'
                  rcases alookup_aset_cases _ _ _ _ _ h' with ⟨_, rfl⟩ | hold
                  · exact ⟨by simp; omega, fun _ => rfl⟩
                  · exact h sid' st' hold
                · rw [prompt_invalid_nonfinal sys sid vp n m st hst ht hvp hqi'
                    (Nat.lt_of_not_le hfin)]
                  intro sid' st' h'
                  rcases alookup_aset_cases _ _ _ _ _ h' with ⟨_, rfl⟩ | hold
                  · exact ⟨by simp; omega, fun h3 => absurd h3 (by simpa using hfin)⟩
                  · exact h sid' st' hold
              | true =>
                by_cases hlast : QUESTIONNAIRE.length ≤ st.question_index + 1
                · rw [prompt_valid_complete sys sid vp n m st hst ht hvp hqi' hlast]
                  intro sid' st' h'
                  rcases alookup_aset_cases _ _ _ _ _ h' with ⟨_, rfl⟩ | hold
                  · exact ⟨by simp, fun _ => rfl⟩
                  · exact h sid' st' hold
                · rw [prompt_valid_next sys sid vp n m st hst ht hvp
                    (Nat.lt_of_not_le hlast)]
                  intro sid' st' h'
                  rcases alookup_aset_cases _ _ _ _ _ h' with ⟨_, rfl⟩ | hold
                  · exact ⟨by simp, fun h3 => absurd h3 (by simp)⟩
                  · exact h sid' st' hold

theorem runPrompts_preserves_attemptsInv (sys : Sys)
    (ps : List (Option String × String × ValidatorOutcome))
    (h : SysAttemptsInv sys) : SysAttemptsInv (runPrompts sys ps) := by
  induction ps generalizing sys with
  | nil => exact h
  | cons p rest ih =>
    exact ih _ (prompt_preserves_attemptsInv sys p.1 p.2.1 p.2.2 h)

/-- C3: (i) over any sequence of Prompt messages the invalid-attempts
counter of every session stays at most 3 and reaching 3 implies the
session has been terminated; (ii) any valid answer resets the counter to 0;
(iii) the third consecutive invalid answer on one question fires
termination with reason `"invalid_answers"`. -/
theorem invalid_attempts_invariant :
    (∀ sys ps, SysAttemptsInv sys → SysAttemptsInv (runPrompts sys ps)) ∧
    (∀ sys sid vp n m st, alookup sys.call_states sid = some st →
      st.terminated = false → pyStrip vp ≠ "" →
      st.question_index < QUESTIONNAIRE.length →
      (alookup (handle_prompt_message sys (some sid) vp
          (ValidatorOutcome.result true n m)).call_states sid).map
        (fun s => s.invalid_attempts_current_question) = some 0) ∧
    (∀ sys sid vp n m st, alookup sys.call_states sid = some st →
      st.terminated = false → pyStrip vp ≠ "" →
      st.question_index < QUESTIONNAIRE.length →
      st.invalid_attempts_current_question = 2 →
      alookup (handle_prompt_message sys (some sid) vp
          (ValidatorOutcome.result false n m)).call_states sid =
        some { st with
          silence_task := none
          invalid_attempts_current_question := 3
          terminated := true
          termination_reason := "invalid_answers"
          status := "terminated"
          completed := false }) := by
  refine ⟨?_, ?_, ?_⟩
  · exact fun sys ps h => runPrompts_preserves_attemptsInv sys ps h
  · intro sys sid vp n m st h ht hvp hqi
    by_cases hlast : QUESTIONNAIRE.length ≤ st.question_index + 1
    · rw [prompt_valid_complete sys sid vp n m st h ht hvp hqi hlast]
      simp [alookup_aset_self]
    · rw [prompt_valid_next sys sid vp n m st h ht hvp (Nat.lt_of_not_le hlast)]
      simp [alookup_aset_self]
  · intro sys sid vp n m st h ht hvp hqi hatt
    rw [prompt_invalid_final sys sid vp n m st h ht hvp hqi (by omega)]
    simp [alookup_aset_self, hatt]

/-- A session of `demoStart` that already has two consecutive invalid
answers recorded on the current question. -/
def demoTwoStrikes : Sys :=
  { demoStart with
    call_states := [("A", { demoState with invalid_attempts_current_question := 2 })] }

theorem demoStart_attemptsInv : SysAttemptsInv demoStart := by
  intro sid st h
  have hcs : demoStart.call_states = [("A", demoState)] := rfl
  rw [hcs] at h
  simp only [alookup] at h
  split at h
  · cases h
    exact ⟨by decide, fun h3 => absurd h3 (by decide)⟩
  · cases h

/-- Witness for C3 at concrete runs. -/
theorem invalid_attempts_invariant_witness :
    SysAttemptsInv (runPrompts demoStart
      [(some "A", "blue", ValidatorOutcome.result false "" "bad")]) ∧
    (alookup (handle_prompt_message demoStart (some "A") "Dana"
        (ValidatorOutcome.result true "Dana" "")).call_states "A").map
      (fun s => s.invalid_attempts_current_question) = some 0 ∧
    alookup (handle_prompt_message demoTwoStrikes (some "A") "blue"
        (ValidatorOutcome.result false "" "bad")).call_states "A" =
      some { question_index := 0, answers := [], completed := false,
             status := "terminated", termination_reason := "invalid_answers",
             invalid_attempts_current_question := 3, terminated := true,
             silence_task := none } :=
  ⟨invalid_attempts_invariant.1 demoStart _ demoStart_attemptsInv,
   invalid_attempts_invariant.2.1 demoStart "A" "Dana" "Dana" "" demoState rfl rfl
     (by decide) (by decide),
   invalid_attempts_invariant.2.2 demoTwoStrikes "A" "blue" "" "bad"
     { demoState with invalid_attempts_current_question := 2 } rfl rfl
     (by decide) (by decide) rfl⟩

/-! ## Claim C10 -/

/-- Firing a watchdog of a different call never changes this call's state. -/
theorem fire_preserves_other_call (sys : Sys) (tid : Nat) (s sid : String)
    (hne : s ≠ sid) :
    alookup (silence_watchdog_fire sys tid s).call_states sid =
      alookup sys.call_states sid := by
  unfold silence_watchdog_fire
  split
  · cases h1 : alookup sys.call_states s with
    | none => simp [h1]
    | some stS =>
      by_cases hts : stS.terminated
      · simp [h1, hts]
      · simp [h1, hts, terminate_call, alookup_aset_ne _ s sid _ (Ne.symm hne)]
  · rfl

/-- C10: if the validator raises during a Prompt, the handler has already
cancelled the silence watchdog and does not restart it: afterwards the
session's `silence_task` is cleared, no new timer was allocated, no live
timer belongs to this call any more, and firing any remaining live timer
leaves this call's session state untouched — silence alone can no longer
terminate it. -/
theorem validator_error_leaves_no_timer (sys : Sys) (sid vp : String) (st : SessionState)
    (h : alookup sys.call_states sid = some st)
    (ht : st.terminated = false)
    (hvp : pyStrip vp ≠ "")
    (hqi : st.question_index < QUESTIONNAIRE.length)
    (hlive : ∀ e ∈ sys.live_timers, e.2 = sid → st.silence_task = some e.1) :
    alookup (handle_prompt_message sys (some sid) vp
        ValidatorOutcome.error).call_states sid = some { st with silence_task := none } ∧
    (handle_prompt_message sys (some sid) vp ValidatorOutcome.error).next_timer =
      sys.next_timer ∧
    ((handle_prompt_message sys (some sid) vp ValidatorOutcome.error).live_timers.all
      (fun e => decide (e.2 ≠ sid))) = true ∧
    ((handle_prompt_message sys (some sid) vp ValidatorOutcome.error).live_timers.all
      (fun e => decide (alookup (silence_watchdog_fire
          (handle_prompt_message sys (some sid) vp ValidatorOutcome.error)
          e.1 e.2).call_states sid =
        alookup (handle_prompt_message sys (some sid) vp
          ValidatorOutcome.error).call_states sid))) = true := by
  rw [prompt_validator_error sys sid vp st h ht hvp hqi]
  have hall : ∀ e ∈ cancelTimer sys.live_timers st.silence_task, e.2 ≠ sid := by
    intro e he hesid
    cases hsil : st.silence_task with
    | none =>
      rw [hsil] at he
      exact Option.noConfusion ((hsil ▸ hlive e he hesid : (none : Option Nat) = some e.1))
    | some tid =>
      rw [hsil] at he
      simp only [cancelTimer, List.mem_filter] at he
      have := hlive e he.1 hesid
      rw [hsil] at this
      have h1 : tid = e.1 := Option.some.injEq _ _ ▸ this
      simp [h1] at he
  refine ⟨by simp [alookup_aset_self], rfl, ?_, ?_⟩
  · rw [List.all_eq_true]
    intro e he
    simpa using hall e (by simpa using he)
  · rw [List.all_eq_true]
    intro e he
    have hne : e.2 ≠ sid := hall e (by simpa using he)
    simpa using fire_preserves_other_call _ e.1 e.2 sid hne

/-- Witness for C10 at a concrete session whose only live timer is its own
watchdog. -/
theorem validator_error_leaves_no_timer_witness :
    alookup (handle_prompt_message demoStart (some "A") "hello"
        ValidatorOutcome.error).call_states "A" =
      some { demoState with silence_task := none } ∧
    (handle_prompt_message demoStart (some "A") "hello" ValidatorOutcome.error).next_timer =
      demoStart.next_timer ∧
    ((handle_prompt_message demoStart (some "A") "hello" ValidatorOutcome.error).live_timers.all
      (fun e => decide (e.2 ≠ "A"))) = true ∧
    ((handle_prompt_message demoStart (some "A") "hello" ValidatorOutcome.error).live_timers.all
      (fun e => decide (alookup (silence_watchdog_fire
          (handle_prompt_message demoStart (some "A") "hello" ValidatorOutcome.error)
          e.1 e.2).call_states "A" =
        alookup (handle_prompt_message demoStart (some "A") "hello"
          ValidatorOutcome.error).call_states "A"))) = true :=
  validator_error_leaves_no_timer demoStart "A" "hello" demoState rfl rfl
    (by decide) (by decide) (by decide)

/-! ## Claim C4 -/

/-- System after a second `Setup(callSid="A")` arrives while the first
session's watchdog timer `0` is still pending. -/
def reentryAgain : Sys := (ws_setup demoStart "A").1

/-- System after the first session's watchdog timer `0` subsequently fires. -/
def reentryFired : Sys := silence_watchdog_fire reentryAgain 0 "A"

/-- C4 is violated by the code: `handle_setup_message` overwrites
`call_states["A"]` without cancelling the previous session's silence
timer, so timer `0` started during the first session is still live after
the second Setup, and when it fires it looks up the *new* session and
terminates it with reason `"silence"`. -/
theorem setup_reentry_stale_timer_terminates_new_session :
    (0, "A") ∈ demoStart.live_timers ∧
    (0, "A") ∈ reentryAgain.live_timers ∧
    alookup reentryAgain.call_states "A" = some { freshSession with silence_task := some 1 } ∧
    alookup reentryFired.call_states "A" =
      some { freshSession with
        status := "terminated", termination_reason := "silence",
        terminated := true, silence_task := none } ∧
    reentryFired.live_timers = [] := by decide

/-! ## Substring search (the Python `in` operator and `str.find`) -/

/-- First index at which `needle` occurs inside `hay`, if any. -/
def findSubstr (needle : List Char) : List Char → Option Nat
  | [] => if needle.isPrefixOf ([] : List Char) then some 0 else none
  | c :: rest =>
    if needle.isPrefixOf (c :: rest) then some 0
    else (findSubstr needle rest).map (· + 1)

/-- Python `needle in hay` on strings. -/
def containsSubstr (hay needle : String) : Bool :=
  (findSubstr needle.data hay.data).isSome

theorem isPrefixOf_take {nd hay : List Char} (h : nd.isPrefixOf hay = true) :
    hay.take nd.length = nd ∧ nd.length ≤ hay.length := by
  have hp : nd <+: hay := List.isPrefixOf_iff_prefix.mp h
  exact ⟨((List.prefix_iff_eq_take.mp hp).symm), hp.length_le⟩

/-- Soundness of `findSubstr`: a reported match really is the needle at
that offset, and it fits inside the haystack. -/
theorem findSubstr_sound (needle hay : List Char) (i : Nat)
    (h : findSubstr needle hay = some i) :
    ((hay.drop i).take needle.length = needle) ∧ i + needle.length ≤ hay.length := by
  induction hay generalizing i with
  | nil =>
    unfold findSubstr at h
    split at h
    · cases h
      rename_i hpre
      obtain ⟨h1, h2⟩ := isPrefixOf_take hpre
      exact ⟨h1, by omega⟩
    · cases h
  | cons c rest ih =>
    unfold findSubstr at h
    split at h
    · cases h
      rename_i hpre
      obtain ⟨h1, h2⟩ := isPrefixOf_take hpre
      exact ⟨h1, by omega⟩
    · cases hfr : findSubstr needle rest with
      | none => rw [hfr] at h; cases h
      | some j =>
        rw [hfr] at h
        simp only [Option.map_some'] at h
        cases h
        obtain ⟨h1, h2⟩ := ih j hfr
        constructor
        · simpa using h1
        · simpa [Nat.succ_add] using Nat.succ_le_succ h2

/-! ## `ai_utils.py`: classify_transcription_compliance -/

/-- One element of the model's `compliance_violations` JSON array: a string
or some other JSON value (the latter is skipped by the `isinstance` check). -/
inductive JsonItem where
  | str (s : String)
  | nonstr
deriving Repr, DecidableEq

/-- The parsed chat-completion reply: `decodeError` models
`json.JSONDecodeError`; otherwise the coerced `is_compliance_violation`
boolean together with the raw `compliance_violations` field (`none` when
that field is not a JSON list). -/
inductive ModelResponse where
  | decodeError
  | ok (is_compliance_violation : Bool) (raw : Option (List JsonItem))
deriving Repr, DecidableEq

/-- Python `sep.join(xs)`. -/
def pyJoin (sep : String) : List String → String
  | [] => ""
  | [x] => x
  | x :: y :: rest => x ++ sep ++ pyJoin sep (y :: rest)

/-- `cleaned_context`: strip every snippet, keep the non-empty ones. -/
def cleanedContext (recent : List String) : List String :=
  (recent.map pyStrip).filter (fun s => s ≠ "")

/-- `validation_source`: the lower-cased newline-join of the cleaned
transcript and the cleaned context snippets. -/
def complianceSource (transcript : String) (recent : List String) : String :=
  pyLower (pyJoin "\n" (pyStrip transcript :: cleanedContext recent))

/-- The hallucination/dedup filter loop of
`classify_transcription_compliance`.  The accumulator holds the phrases
kept so far in reverse order; the Python `seen` set is exactly the set of
lower-cased accumulator entries. -/
def filterViolations (src : String) : List JsonItem → List String → List String
  | [], acc => acc.reverse
  | JsonItem.nonstr :: rest, acc => filterViolations src rest acc
  | JsonItem.str s :: rest, acc =>
    if pyStrip s = "" then filterViolations src rest acc
    else if containsSubstr src (pyLower (pyStrip s)) = false then
      filterViolations src rest acc
    else if acc.any (fun a => pyLower a == pyLower (pyStrip s)) = true then
      filterViolations src rest acc
    else filterViolations src rest (pyStrip s :: acc)

/-- `classify_transcription_compliance` with the chat-completion call
replaced by its parsed response. -/
def classify_transcription_compliance (transcript : String) (recent : List String)
    (resp : ModelResponse) : Bool × List String :=
  if pyStrip transcript = "" then (false, [])
  else
    match resp with
    | ModelResponse.decodeError => (false, [])
    | ModelResponse.ok isv raw =>
      match raw with
      | none => (false, [])
      | some items =>
        let compliance_violations :=
          filterViolations (complianceSource transcript recent) items []
        if compliance_violations = [] then (false, [])
        else (isv || !compliance_violations.isEmpty, compliance_violations)

/-- Case-insensitive distinctness of two phrases. -/
def LowerNe (a b : String) : Prop := pyLower a ≠ pyLower b

theorem filterViolations_mem (src : String) (items : List JsonItem) (acc : List String)
    (v : String) (hv : v ∈ filterViolations src items acc) :
    v ∈ acc ∨ containsSubstr src (pyLower v) = true := by
  induction items generalizing acc with
  | nil =>
    simp only [filterViolations, List.mem_reverse] at hv
    exact Or.inl hv
  | cons it rest ih =>
    cases it with
    | nonstr => exact ih acc (by simpa [filterViolations] using hv)
    | str s =>
      by_cases h1 : pyStrip s = ""
      · exact ih acc (by simpa [filterViolations, h1] using hv)
      · by_cases h2 : containsSubstr src (pyLower (pyStrip s)) = false
        · exact ih acc (by simpa [filterViolations, h1, h2] using hv)
        · by_cases h3 : acc.any (fun a => pyLower a == pyLower (pyStrip s)) = true
          · exact ih acc (by simpa [filterViolations, h1, h2, h3] using hv)
          · have hv' : v ∈ filterViolations src rest (pyStrip s :: acc) := by
              simpa [filterViolations, h1, h2, h3] using hv
            rcases ih _ hv' with hmem | hsub
            · rcases List.mem_cons.mp hmem with rfl | hmem'
              · refine Or.inr ?_
                cases hb : containsSubstr src (pyLower (pyStrip s)) with
                | false => exact absurd hb h2
                | true => rfl
              · exact Or.inl hmem'
            · exact Or.inr hsub

theorem filterViolations_pairwise (src : String) (items : List JsonItem)
    (acc : List String) (hacc : acc.Pairwise LowerNe) :
    (filterViolations src items acc).Pairwise LowerNe := by
  induction items generalizing acc with
  | nil =>
    simp only [filterViolations]
    rw [List.pairwise_reverse]
    exact hacc.imp (fun h => Ne.symm h)
  | cons it rest ih =>
    cases it with
    | nonstr => simpa [filterViolations] using ih acc hacc
    | str s =>
      by_cases h1 : pyStrip s = ""
      · simpa [filterViolations, h1] using ih acc hacc
      · by_cases h2 : containsSubstr src (pyLower (pyStrip s)) = false
        · simpa [filterViolations, h1, h2] using ih acc hacc
        · by_cases h3 : acc.any (fun a => pyLower a == pyLower (pyStrip s)) = true
          · simpa [filterViolations, h1, h2, h3] using ih acc hacc
          · have hnew : (pyStrip s :: acc).Pairwise LowerNe := by
              refine List.Pairwise.cons ?_ hacc
              intro a ha
              have hne : ¬(pyLower a == pyLower (pyStrip s)) = true := by
                intro hb
                exact h3 (List.any_eq_true.mpr ⟨a, ha, hb⟩)
              have hne' : pyLower a ≠ pyLower (pyStrip s) := by simpa using hne
              exact fun hEq => hne' hEq.symm
            simpa [filterViolations, h1, h2, h3] using ih _ hnew

/-! ## Claim C6 -/

/-- C6: every violation phrase returned by the classifier occurs literally
(case-insensitively) in the newline-concatenation of the cleaned current
transcript and the cleaned context snippets; case-insensitive duplicates
are collapsed (the returned list is pairwise distinct modulo lower-casing);
and the verdict can never be violating while the filtered list is empty. -/
theorem compliance_filter_hardening (transcript : String) (recent : List String)
    (resp : ModelResponse) :
    ((classify_transcription_compliance transcript recent resp).2.all
      (fun v => containsSubstr (complianceSource transcript recent) (pyLower v))) = true ∧
    (classify_transcription_compliance transcript recent resp).2.Pairwise LowerNe ∧
    (!((classify_transcription_compliance transcript recent resp).1 &&
       (classify_transcription_compliance transcript recent resp).2.isEmpty)) = true := by
  by_cases h0 : pyStrip transcript = ""
  · simp [classify_transcription_compliance, h0]
  · cases resp with
    | decodeError => simp [classify_transcription_compliance, h0]
    | ok isv raw =>
      cases raw with
      | none => simp [classify_transcription_compliance, h0]
      | some items =>
        by_cases hvs : filterViolations (complianceSource transcript recent) items [] = []
        · simp [classify_transcription_compliance, h0, hvs]
        · have hcls : classify_transcription_compliance transcript recent
              (ModelResponse.ok isv (some items)) =
              (isv || !(filterViolations (complianceSource transcript recent) items []).isEmpty,
               filterViolations (complianceSource transcript recent) items []) := by
            simp [classify_transcription_compliance, h0, hvs]
          rw [hcls]
          refine ⟨?_, ?_, ?_⟩
          · rw [List.all_eq_true]
            intro v hv
            rcases filterViolations_mem _ _ _ v hv with hmem | hsub
            · cases hmem
            · exact hsub
          · exact filterViolations_pairwise _ _ _ List.Pairwise.nil
          · simp [List.isEmpty_iff, hvs]

/-! ## Claim C9 -/

/-- C9: the classifier's boolean verdict is `true` exactly when the
filtered violation-phrase list is non-empty; in particular a `false` model
boolean is overridden to violating whenever phrases survive the filter. -/
theorem verdict_iff_phrases_nonempty (transcript : String) (recent : List String)
    (resp : ModelResponse) :
    (classify_transcription_compliance transcript recent resp).1 = true ↔
      (classify_transcription_compliance transcript recent resp).2 ≠ [] := by
  by_cases h0 : pyStrip transcript = ""
  · simp [classify_transcription_compliance, h0]
  · cases resp with
    | decodeError => simp [classify_transcription_compliance, h0]
    | ok isv raw =>
      cases raw with
      | none => simp [classify_transcription_compliance, h0]
      | some items =>
        by_cases hvs : filterViolations (complianceSource transcript recent) items [] = []
        · simp [classify_transcription_compliance, h0, hvs]
        · simp [classify_transcription_compliance, h0, hvs, List.isEmpty_iff]

/-! ## `main.py`: transcription webhook (claim C7) -/

/-- Outcome of calling the `compliance_classifier` partial from the
webhook: a raised exception, or the `(is_violation, violations)` pair. -/
inductive ClassifierOutcome where
  | failure
  | ok (is_violation : Bool) (violations : List String)
deriving Repr, DecidableEq

/-- Response summary of the webhook: `skipped` is true for non-inbound
tracks; the other fields are the enrichment added to the broadcast
payload (`IsComplianceViolation`, `ComplianceViolations`). -/
structure WebhookResult where
  skipped : Bool
  is_compliance_violation : Bool
  compliance_violations : List String
deriving Repr, DecidableEq

/-- `deque(maxlen=3).append`: append and drop the oldest beyond 3. -/
def dequeAppend3 (xs : List String) (x : String) : List String :=
  (xs ++ [x]).drop ((xs ++ [x]).length - 3)

/-- `transcription_webhook` from `main.py`, with payload parsing replaced
by its extracted fields (`Track`, `CallSid`, the stripped transcript text
produced by `_extract_transcript_text`) and the classifier call replaced by
its outcome.  Returns the updated `inbound_transcript_context` map and the
response summary.  The `try/except` around the classifier swallows the
failure, after which control falls through to the context append. -/
def transcription_webhook (track callSid transcript_text : String)
    (cls : ClassifierOutcome) (contexts : List (String × List String)) :
    List (String × List String) × WebhookResult :=
  if track ≠ "inbound_track" then (contexts, ⟨true, false, []⟩)
  else
    let call_sid := pyStrip callSid
    let contexts1 :=
      if call_sid ≠ "" then
        match alookup contexts call_sid with
        | none => aset contexts call_sid []
        | some _ => contexts
      else contexts
    let enrich :=
      if transcript_text ≠ "" then
        match cls with
        | ClassifierOutcome.ok b vs => (b, vs)
        | ClassifierOutcome.failure => (false, [])
      else (false, [])
    let contexts2 :=
      if transcript_text ≠ "" ∧ call_sid ≠ "" then
        aset contexts1 call_sid
          (dequeAppend3 ((alookup contexts1 call_sid).getD []) transcript_text)
      else contexts1
    (contexts2, ⟨false, enrich.1, enrich.2⟩)

theorem dequeAppend3_length_le (xs : List String) (x : String) :
    (dequeAppend3 xs x).length ≤ 3 := by
  simp [dequeAppend3]
  omega

/-- C7 as stated is refuted by the code: on an inbound event whose
classification fails, the transcript is nevertheless appended to the
call's context window (the `except` clause only logs, then control reaches
the unconditional append). -/
theorem context_appended_after_classifier_failure :
    (transcription_webhook "inbound_track" "CA1" "margin"
        ClassifierOutcome.failure []).1 = [("CA1", ["margin"])] ∧
    (transcription_webhook "inbound_track" "CA1" "margin"
        ClassifierOutcome.failure []).2 =
      { skipped := false, is_compliance_violation := false,
        compliance_violations := [] } := by decide

/-- C7 amended: on an inbound-track event with non-empty transcript text
and call sid, the transcript is appended to that call's bounded context
window (last 3, oldest dropped) after the classification attempt,
regardless of the classifier outcome — success with any verdict, or
failure; a classifier failure degrades to a non-violating enriched event
and a normal (non-error) response, while a successful classification
passes its verdict through. -/
theorem webhook_appends_and_degrades (callSid transcript : String)
    (cls : ClassifierOutcome) (contexts : List (String × List String))
    (hsid : pyStrip callSid ≠ "") (htr : transcript ≠ "") :
    alookup (transcription_webhook "inbound_track" callSid transcript
        cls contexts).1 (pyStrip callSid) =
      some (dequeAppend3 ((alookup contexts (pyStrip callSid)).getD []) transcript) ∧
    (transcription_webhook "inbound_track" callSid transcript cls contexts).2 =
      { skipped := false
        is_compliance_violation :=
          match cls with
          | ClassifierOutcome.ok b _ => b
          | ClassifierOutcome.failure => false
        compliance_violations :=
          match cls with
          | ClassifierOutcome.ok _ vs => vs
          | ClassifierOutcome.failure => [] } ∧
    (dequeAppend3 ((alookup contexts (pyStrip callSid)).getD []) transcript).length ≤ 3 := by
  cases hc : alookup contexts (pyStrip callSid) with
  | none =>
    refine ⟨?_, ?_, dequeAppend3_length_le _ _⟩
    · cases cls <;> simp [transcription_webhook, hsid, htr, hc, aset_aset, alookup_aset_self]
    · cases cls <;> simp [transcription_webhook, hsid, htr, hc]
  | some w =>
    refine ⟨?_, ?_, dequeAppend3_length_le _ _⟩
    · cases cls <;> simp [transcription_webhook, hsid, htr, hc, alookup_aset_self]
    · cases cls <;> simp [transcription_webhook, hsid, htr, hc]

/-- A context map with a full (3-element) window for call `"CA1"`. -/
def demoContexts : List (String × List String) := [("CA1", ["a", "b", "c"])]

/-- Witness for the amended C7 at a concrete full window, exercising both
classifier outcomes: a failure and a successful violating classification. -/
theorem webhook_appends_and_degrades_witness :
    (alookup (transcription_webhook "inbound_track" "CA1" "margin"
        ClassifierOutcome.failure demoContexts).1 (pyStrip "CA1") =
      some (dequeAppend3 ((alookup demoContexts (pyStrip "CA1")).getD []) "margin") ∧
    (transcription_webhook "inbound_track" "CA1" "margin"
        ClassifierOutcome.failure demoContexts).2 =
      { skipped := false, is_compliance_violation := false,
        compliance_violations := [] } ∧
    (dequeAppend3 ((alookup demoContexts (pyStrip "CA1")).getD []) "margin").length ≤ 3) ∧
    (alookup (transcription_webhook "inbound_track" "CA1" "margin"
        (ClassifierOutcome.ok true ["margin"]) demoContexts).1 (pyStrip "CA1") =
      some (dequeAppend3 ((alookup demoContexts (pyStrip "CA1")).getD []) "margin") ∧
    (transcription_webhook "inbound_track" "CA1" "margin"
        (ClassifierOutcome.ok true ["margin"]) demoContexts).2 =
      { skipped := false, is_compliance_violation := true,
        compliance_violations := ["margin"] } ∧
    (dequeAppend3 ((alookup demoContexts (pyStrip "CA1")).getD []) "margin").length ≤ 3) :=
  ⟨webhook_appends_and_degrades "CA1" "margin" ClassifierOutcome.failure demoContexts
      (by decide) (by decide),
   webhook_appends_and_degrades "CA1" "margin" (ClassifierOutcome.ok true ["margin"])
      demoContexts (by decide) (by decide)⟩

/-! ## Claim C5 (spec-modelled transcript dedup cache) -/

/-- Split a character list into maximal whitespace-free words; the second
argument accumulates the current word in reverse. -/
def wordsAux : List Char → List Char → List (List Char)
  | [], cur => if cur.isEmpty then [] else [cur.reverse]
  | c :: rest, cur =>
    if c.isWhitespace then
      if cur.isEmpty then wordsAux rest [] else cur.reverse :: wordsAux rest []
    else wordsAux rest (c :: cur)

/-- Modelled from the spec: the dedup key — case-folded, whitespace-
collapsed transcript text (§4.5; the dedup-bearing variant of the
transcription webhook is not among the sources, so the cache is modelled
from the design text). -/
def normalizeTranscriptKey (s : String) : String :=
  pyJoin " " ((wordsAux (pyLower s).data []).map (fun w => (⟨w⟩ : String)))

/-- Modelled from the spec: TTL-bounded dedup check at monotonic time
`now` — lazily drop entries older than the TTL from the front of the
insertion-ordered queue, report a duplicate if the key is still present,
otherwise accept and record it (§4.5). -/
def dedupCheck (ttl now : Nat) (cache : List (Nat × String)) (key : String) :
    Bool × List (Nat × String) :=
  let fresh := cache.dropWhile (fun e => ttl < now - e.1)
  if fresh.any (fun e => e.2 == key) then (true, fresh)
  else (false, fresh ++ [(now, key)])

/-- C5 (spec-modelled): two final-transcript events with the same
normalized key, arriving at monotonic times `t1 ≤ t2` with an initially
empty cache: the first is always accepted (not a duplicate), and the
second is reported a duplicate exactly when the gap is within the TTL —
so one accepted delivery within the TTL, two beyond it. -/
theorem dedup_ttl_behavior (ttl t1 t2 : Nat) (s1 s2 : String)
    (_h12 : t1 ≤ t2)
    (hkey : normalizeTranscriptKey s1 = normalizeTranscriptKey s2) :
    (dedupCheck ttl t1 [] (normalizeTranscriptKey s1)).1 = false ∧
    (dedupCheck ttl t2 (dedupCheck ttl t1 [] (normalizeTranscriptKey s1)).2
        (normalizeTranscriptKey s2)).1 = decide (t2 - t1 ≤ ttl) := by
  refine ⟨rfl, ?_⟩
  by_cases hin : t2 - t1 ≤ ttl
  · have hpred : ¬(ttl < t2 - t1) := Nat.not_lt.mpr hin
    simp [dedupCheck, hpred, hkey, hin]
  · have hpred : ttl < t2 - t1 := Nat.lt_of_not_le hin
    simp [dedupCheck, hpred, hin]

/-- Witness for C5: TTL 5 seconds, events at times 10 and 13 with texts
that agree after case-folding and whitespace collapsing. -/
theorem dedup_ttl_behavior_witness :
    (dedupCheck 5 10 [] (normalizeTranscriptKey "Hello  WORLD")).1 = false ∧
    (dedupCheck 5 13 (dedupCheck 5 10 [] (normalizeTranscriptKey "Hello  WORLD")).2
        (normalizeTranscriptKey "hello world")).1 = decide (13 - 10 ≤ 5) :=
  dedup_ttl_behavior 5 10 13 "Hello  WORLD" "hello world" (by decide) (by decide)

/-! ## Claim C8 (spec-modelled interrupt truncation) -/

/-- Role of a conversation turn (free-form Conversation Engine variant). -/
inductive Role where
  | system
  | user
  | assistant
deriving Repr, DecidableEq

/-- One conversation turn; content is kept as a character list. -/
structure Turn where
  role : Role
  content : List Char
deriving Repr, DecidableEq

/-- Modelled from the spec (§4.3 `onInterrupt`; the free-form Conversation
Engine variant is not among the sources — `handle_interrupt_message` in
`relay_handlers.py` only logs): scan the conversation backwards for the
most recent assistant turn containing the utterance, truncate it to end
exactly at the end of the matched substring, and drop every later
assistant turn; `none` when no assistant turn matches. -/
def truncLastMatch (utt : List Char) : List Turn → Option (List Turn)
  | [] => none
  | t :: rest =>
    match truncLastMatch utt rest with
    | some rest' => some (t :: rest')
    | none =>
      if t.role = Role.assistant then
        match findSubstr utt t.content with
        | some i =>
          some ({ role := Role.assistant, content := t.content.take (i + utt.length) } ::
            rest.filter (fun u => decide (u.role ≠ Role.assistant)))
        | none => none
      else none

/-- Modelled from the spec: interrupt handling — truncate at the most
recent matching assistant turn, or no-op when no match is found. -/
def onInterrupt (conv : List Turn) (utt : List Char) : List Turn :=
  match truncLastMatch utt conv with
  | some conv' => conv'
  | none => conv

theorem truncLastMatch_none (utt : List Char) (conv : List Turn)
    (h : ∀ t ∈ conv, t.role = Role.assistant → findSubstr utt t.content = none) :
    truncLastMatch utt conv = none := by
  induction conv with
  | nil => rfl
  | cons t rest ih =>
    have hrest := ih (fun u hu ha => h u (List.mem_cons_of_mem _ hu) ha)
    unfold truncLastMatch
    rw [hrest]
    by_cases hr : t.role = Role.assistant
    · simp [hr, h t (List.mem_cons_self _ _) hr]
    · simp [hr]

theorem truncLastMatch_spec (utt c : List Char) (pre post : List Turn) (i : Nat)
    (hfind : findSubstr utt c = some i)
    (hpost : ∀ t ∈ post, t.role = Role.assistant → findSubstr utt t.content = none) :
    truncLastMatch utt (pre ++ { role := Role.assistant, content := c } :: post) =
      some (pre ++ { role := Role.assistant, content := c.take (i + utt.length) } ::
        post.filter (fun u => decide (u.role ≠ Role.assistant))) := by
  induction pre with
  | nil =>
    have hrest := truncLastMatch_none utt post hpost
    simp only [List.nil_append]
    unfold truncLastMatch
    rw [hrest]
    simp [hfind]
  | cons p pre' ih =>
    simp only [List.cons_append]
    unfold truncLastMatch
    rw [ih]

/-- C8 (spec-modelled): (i) when no assistant turn contains the utterance,
the interrupt is a no-op; (ii) otherwise the most recent matching
assistant turn is truncated so that its content is the prefix of the
original ending exactly at the end of the matched utterance occurrence
(hence never longer than the original), and every later assistant turn is
dropped while non-assistant turns survive. -/
theorem interrupt_truncation_correct :
    (∀ (conv : List Turn) (utt : List Char),
      (∀ t ∈ conv, t.role = Role.assistant → findSubstr utt t.content = none) →
      onInterrupt conv utt = conv) ∧
    (∀ (pre post : List Turn) (c utt : List Char) (i : Nat),
      findSubstr utt c = some i →
      (∀ t ∈ post, t.role = Role.assistant → findSubstr utt t.content = none) →
      onInterrupt (pre ++ { role := Role.assistant, content := c } :: post) utt =
        pre ++ { role := Role.assistant, content := c.take (i + utt.length) } ::
          post.filter (fun u => decide (u.role ≠ Role.assistant)) ∧
      (c.drop i).take utt.length = utt ∧
      c.take (i + utt.length) ++ c.drop (i + utt.length) = c ∧
      (c.take (i + utt.length)).length ≤ c.length) := by
  constructor
  · intro conv utt h
    unfold onInterrupt
    rw [truncLastMatch_none utt conv h]
  · intro pre post c utt i hfind hpost
    obtain ⟨hmatch, hfit⟩ := findSubstr_sound utt c i hfind
    refine ⟨?_, hmatch, List.take_append_drop _ _, by simp⟩
    unfold onInterrupt
    rw [truncLastMatch_spec utt c pre post i hfind hpost]

/-- Witness for C8: no-op on a non-matching conversation, and exact
truncation on a matching one. -/
theorem interrupt_truncation_correct_witness :
    onInterrupt [{ role := Role.assistant, content := "xyz".data }] "q".data =
      [{ role := Role.assistant, content := "xyz".data }] ∧
    (onInterrupt ([{ role := Role.user, content := "hi".data }] ++
        { role := Role.assistant, content := "Hello there, how can I help you today?".data } ::
        [{ role := Role.assistant, content := "stale continuation".data },
         { role := Role.user, content := "u".data }]) "Hello there".data =
      [{ role := Role.user, content := "hi".data }] ++
        { role := Role.assistant,
          content := "Hello there, how can I help you today?".data.take
            (0 + "Hello there".data.length) } ::
        [{ role := Role.assistant, content := "stale continuation".data },
         { role := Role.user, content := "u".data }].filter
          (fun u => decide (u.role ≠ Role.assistant)) ∧
      ("Hello there, how can I help you today?".data.drop 0).take
        "Hello there".data.length = "Hello there".data ∧
      "Hello there, how can I help you today?".data.take (0 + "Hello there".data.length) ++
        "Hello there, how can I help you today?".data.drop (0 + "Hello there".data.length) =
        "Hello there, how can I help you today?".data ∧
      ("Hello there, how can I help you today?".data.take
        (0 + "Hello there".data.length)).length ≤
        "Hello there, how can I help you today?".data.length) :=
  ⟨interrupt_truncation_correct.1 [{ role := Role.assistant, content := "xyz".data }]
      "q".data (by decide),
   interrupt_truncation_correct.2 [{ role := Role.user, content := "hi".data }]
      [{ role := Role.assistant, content := "stale continuation".data },
       { role := Role.user, content := "u".data }]
      "Hello there, how can I help you today?".data "Hello there".data 0
      (by decide) (by decide)⟩

end TwilioTests
